import Mathlib

/-!
# Warbler: shallow embedding of the social-graph / feed routes

The Flask route handlers of `app.py` are embedded as pure functions over an
explicit database state.  Flask globals appear as parameters:

* `g.user` becomes `guser : Option Nat` (the id of the logged-in user, if any);
* `form.validate_on_submit()` on the CSRF-protection form becomes
  `csrfOk : Bool` (on failure the handler raises `Unauthorized`);
* `flash` + `redirect` responses are collapsed into a `RouteResult` tag
  recording which branch of the handler ran.

The SQLAlchemy models (`models.py`) are not among the sources; where their
behaviour decides an operation (relationship scans, cascade deletes, default
image URLs) the definitions say so in their doc comments and follow the spec's
words for the data model.
-/

namespace Warbler

/-- A row of the `messages` table: id, author (`user_id`), text, and the
server-assigned creation timestamp (embedded as a `Nat`). -/
structure Msg where
  id : Nat
  user_id : Nat
  text : String
  timestamp : Nat
deriving DecidableEq, Repr

/-- The database state visible to the embedded handlers: the user ids, the
message rows, the follow edges `(user_following_id, user_being_followed_id)`
and the like edges `(user_id, message_id)`. -/
structure DBState where
  users : List Nat
  messages : List Msg
  follows : List (Nat × Nat)
  likes : List (Nat × Nat)
deriving DecidableEq, Repr

/-- Which branch of a route handler produced the response.  Each constructor
corresponds to one `flash`/`redirect`/`raise` site in `app.py`. -/
inductive RouteResult where
  /-- the success path: mutation committed, then `redirect` -/
  | redirected
  /-- a `GET`/invalid-form path that re-renders a template without mutating -/
  | rendered
  /-- `flash("Access unauthorized.", "danger")` + `redirect("/")` -/
  | accessUnauthorized
  /-- `raise Unauthorized()` (CSRF-form validation failed) -/
  | unauthorizedRaised
  /-- `get_or_404` missed -/
  | notFound
  /-- `flash("You are already following that user.", "danger")` -/
  | alreadyFollowing
  /-- `flash("You are not following that user.", "danger")` -/
  | notFollowingUser
  /-- `flash("You have already liked this message", "danger")` -/
  | alreadyLiked
  /-- `flash("You can't like your own message", "danger")` -/
  | selfLike
  /-- `flash("This message is not in your likes", "danger")` -/
  | notLiked
deriving DecidableEq, Repr

/-- Modelled from the spec: `models.py` is not among the sources.  §4.2 defines
`list_following(user)` as an edge-table scan keyed by the follower side of the
pair; this is the list the code reads as `user.following`. -/
def following (s : DBState) (uid : Nat) : List Nat :=
  (s.follows.filter (fun p => p.1 == uid)).map Prod.snd

/-- Modelled from the spec: §4.2 defines `list_followers(user)` as an
edge-table scan keyed by the followed side of the pair (`user.followers`). -/
def followers (s : DBState) (uid : Nat) : List Nat :=
  (s.follows.filter (fun p => p.2 == uid)).map Prod.fst

/-- Modelled from the spec: §4.3 `list_liked(user)` scans the like-edge table
keyed by the user side (`user.liked_messages`), preserving insertion order. -/
def liked_messages (s : DBState) (uid : Nat) : List Nat :=
  (s.likes.filter (fun p => p.1 == uid)).map Prod.snd

/-- `Message.query.get(message_id)`: look a message row up by id. -/
def findMsg (s : DBState) (mid : Nat) : Option Msg :=
  s.messages.find? (fun m => m.id == mid)

/-- Ids of the messages authored by `uid`. -/
def authoredIds (s : DBState) (uid : Nat) : List Nat :=
  (s.messages.filter (fun m => m.user_id == uid)).map Msg.id

/-- `POST /users/follow/<follow_id>` (`start_following`): reject when not
logged in, then on CSRF failure, 404 on a missing followee, flash when the
followee is already followed, otherwise append the follow edge and commit. -/
def start_following (s : DBState) (guser : Option Nat) (csrfOk : Bool)
    (follow_id : Nat) : RouteResult × DBState :=
  match guser with
  | none => (.accessUnauthorized, s)
  | some uid =>
    if !csrfOk then (.unauthorizedRaised, s)
    else if follow_id ∉ s.users then (.notFound, s)
    else if follow_id ∈ following s uid then (.alreadyFollowing, s)
    else (.redirected, { s with follows := s.follows ++ [(uid, follow_id)] })

/-- `POST /users/stop-following/<follow_id>` (`stop_following`): symmetric to
`start_following`; removes the (unique) follow edge on success. -/
def stop_following (s : DBState) (guser : Option Nat) (csrfOk : Bool)
    (follow_id : Nat) : RouteResult × DBState :=
  match guser with
  | none => (.accessUnauthorized, s)
  | some uid =>
    if !csrfOk then (.unauthorizedRaised, s)
    else if follow_id ∉ s.users then (.notFound, s)
    else if follow_id ∉ following s uid then (.notFollowingUser, s)
    else (.redirected, { s with follows := s.follows.erase (uid, follow_id) })

/-- `POST /messages/<message_id>/like` (`like_message`).  The handler fetches
the message (404 on miss) before the login check; then, in source order, it
checks already-liked, then own-message, then the CSRF form, and only then
appends the like edge. -/
def like_message (s : DBState) (guser : Option Nat) (csrfOk : Bool)
    (message_id : Nat) : RouteResult × DBState :=
  match findMsg s message_id with
  | none => (.notFound, s)
  | some msg =>
    match guser with
    | none => (.accessUnauthorized, s)
    | some uid =>
      if message_id ∈ liked_messages s uid then (.alreadyLiked, s)
      else if msg.user_id == uid then (.selfLike, s)
      else if !csrfOk then (.unauthorizedRaised, s)
      else (.redirected, { s with likes := s.likes ++ [(uid, message_id)] })

/-- `POST /messages/<message_id>/unlike` (`unlike_message`): 404 on a missing
message, reject when not logged in, flash when the message is not among the
user's likes, check the CSRF form, otherwise remove the like edge. -/
def unlike_message (s : DBState) (guser : Option Nat) (csrfOk : Bool)
    (message_id : Nat) : RouteResult × DBState :=
  match findMsg s message_id with
  | none => (.notFound, s)
  | some _msg =>
    match guser with
    | none => (.accessUnauthorized, s)
    | some uid =>
      if message_id ∉ liked_messages s uid then (.notLiked, s)
      else if !csrfOk then (.unauthorizedRaised, s)
      else (.redirected, { s with likes := s.likes.erase (uid, message_id) })

/-- `POST /messages/new` (`add_message`): reject when not logged in; when the
message form validates, append a new message row for the current user (the
fresh id and server-assigned timestamp are parameters), otherwise re-render. -/
def add_message (s : DBState) (guser : Option Nat) (formValid : Bool)
    (text : String) (newId newTs : Nat) : RouteResult × DBState :=
  match guser with
  | none => (.accessUnauthorized, s)
  | some uid =>
    if formValid then
      (.redirected, { s with messages := s.messages ++ [⟨newId, uid, text, newTs⟩] })
    else (.rendered, s)

/-- `POST /messages/<message_id>/delete` (`delete_message`): reject when not
logged in, then on CSRF failure, 404 on a missing message — and then delete
the message unconditionally: the handler performs no authorship check (its own
docstring says to check that the message was written by the current user).
The removal of the like edges of a deleted message is modelled from the spec
(§3: like edges are deleted when the message is deleted; the cascade lives in
`models.py`, which is not among the sources). -/
def delete_message (s : DBState) (guser : Option Nat) (csrfOk : Bool)
    (message_id : Nat) : RouteResult × DBState :=
  match guser with
  | none => (.accessUnauthorized, s)
  | some _uid =>
    if !csrfOk then (.unauthorizedRaised, s)
    else
      match findMsg s message_id with
      | none => (.notFound, s)
      | some msg =>
        (.redirected, { s with
          messages := s.messages.filter (fun m => !(m.id == msg.id)),
          likes := s.likes.filter (fun q => !(q.2 == msg.id)) })

/-- `POST /users/delete` (`delete_user`): raises `Unauthorized` when not
logged in or on CSRF failure, otherwise deletes the account row.  The cascade
is modelled from the spec (§4.1 `delete(user)`: removes the account and all
dependent Messages, Follow edges, and Like edges touching it; §3: a like edge
is also deleted when its message is deleted; the cascade configuration lives
in `models.py`, which is not among the sources). -/
def delete_user (s : DBState) (guser : Option Nat) (csrfOk : Bool) :
    RouteResult × DBState :=
  match guser with
  | none => (.unauthorizedRaised, s)
  | some uid =>
    if !csrfOk then (.unauthorizedRaised, s)
    else
      (.redirected, { s with
        users := s.users.filter (fun u => !(u == uid)),
        messages := s.messages.filter (fun m => !(m.user_id == uid)),
        follows := s.follows.filter (fun p => !(p.1 == uid || p.2 == uid)),
        likes := s.likes.filter
          (fun q => !(q.1 == uid || (authoredIds s uid).contains q.2)) })

/-- The `ORDER BY timestamp DESC` relation on message rows. -/
def tsGe (a b : Msg) : Prop := b.timestamp ≤ a.timestamp

instance : DecidableRel tsGe := fun a b => Nat.decLe b.timestamp a.timestamp

instance : IsTotal Msg tsGe := ⟨fun a b => Nat.le_total b.timestamp a.timestamp⟩

instance : IsTrans Msg tsGe := ⟨fun _ _ _ h1 h2 => Nat.le_trans h2 h1⟩

/-- The homepage query for a logged-in user: messages whose `user_id` is in
the followed set or equals the user's own id, ordered by timestamp descending
(embedded as a stable sort), limited to 100. -/
def home_timeline (s : DBState) (uid : Nat) : List Msg :=
  (List.insertionSort tsGe
    (s.messages.filter
      (fun m => (following s uid).contains m.user_id || m.user_id == uid))).take 100

/-- `GET /` (`homepage`): anonymous users get the anonymous page (`none`);
logged-in users get the 100 most recent messages of self and followed users. -/
def homepage (s : DBState) (guser : Option Nat) : Option (List Msg) :=
  match guser with
  | none => none
  | some uid => some (home_timeline s uid)

/-- Modelled from the spec: the application default avatar URL
(`DEFAULT_IMAGE_URL` is imported from `models.py`, which is not among the
sources; §3 says profile fields are optional with defaults).  The claims
below do not depend on the concrete string. -/
def DEFAULT_IMAGE_URL : String := "/static/images/default-pic.png"

/-- Modelled from the spec: the application default header image URL
(`DEFAULT_HEADER_IMAGE_URL` from `models.py`; see `DEFAULT_IMAGE_URL`). -/
def DEFAULT_HEADER_IMAGE_URL : String := "/static/images/warbler-hero.jpg"

/-- The profile columns of a user row touched by `edit_profile`. -/
structure Profile where
  username : String
  email : String
  image_url : String
  header_image_url : String
  bio : String
deriving DecidableEq, Repr

/-- The fields submitted through `UserEditForm`. -/
structure EditForm where
  username : String
  email : String
  image_url : String
  header_image_url : String
  bio : String
deriving DecidableEq, Repr

/-- Python's `x or y` on form strings: the empty string is falsy. -/
def strOr (x y : String) : String := if x == "" then y else x

/-- The field assignments of `edit_profile` (`app.py` lines 277–281). -/
def updatedProfile (u : Profile) (f : EditForm) : Profile :=
  { username := strOr f.username u.username
    email := strOr f.email u.email
    image_url := strOr f.image_url DEFAULT_IMAGE_URL
    header_image_url := strOr f.header_image_url DEFAULT_HEADER_IMAGE_URL
    bio := strOr f.bio u.bio }

/-- Outcome of `edit_profile`. -/
inductive EditResult where
  /-- `flash("Access unauthorized.")` + `redirect("/")` -/
  | accessUnauthorized
  /-- a `GET` or invalid submission re-renders the edit form -/
  | rendered
  /-- `flash("Invalid password")` + re-render -/
  | invalidPassword
  /-- commit of the updated profile row, then redirect -/
  | updated (p : Profile)
deriving DecidableEq, Repr

/-- `GET`/`POST /users/profile` (`edit_profile`): reject when not logged in;
on a valid submission, re-authenticate with the submitted password
(`authOk`), then overwrite each profile column with the submitted value,
falling back per field when the submission is blank. -/
def edit_profile (guser : Option Profile) (f : EditForm)
    (formValid authOk : Bool) : EditResult :=
  match guser with
  | none => .accessUnauthorized
  | some u =>
    if !formValid then .rendered
    else if !authOk then .invalidPassword
    else .updated (updatedProfile u f)

/-! ## Basic membership lemmas for the relationship scans -/

theorem mem_following_iff (s : DBState) (a b : Nat) :
    b ∈ following s a ↔ (a, b) ∈ s.follows := by
  simp [following, List.mem_map, List.mem_filter]

theorem mem_followers_iff (s : DBState) (a b : Nat) :
    a ∈ followers s b ↔ (a, b) ∈ s.follows := by
  simp [followers, List.mem_map, List.mem_filter]

theorem mem_liked_iff (s : DBState) (a mid : Nat) :
    mid ∈ liked_messages s a ↔ (a, mid) ∈ s.likes := by
  simp [liked_messages, List.mem_map, List.mem_filter]

/-! ## Concrete states used by the witnesses and counterexamples -/

/-- C1 scenario: user 1 follows user 2; messages by the followed user 2, by
the non-followed user 3, and by user 1 themselves. -/
def c1s : DBState :=
  { users := [1, 2, 3],
    messages := [⟨1, 2, "hi", 5⟩, ⟨2, 3, "no", 7⟩, ⟨3, 1, "own", 3⟩],
    follows := [(1, 2)], likes := [] }

/-- The home timeline of user 1 in `c1s`: the followed and own messages, by
timestamp descending; the message of the non-followed user 3 is absent. -/
def c1tl : List Msg := [⟨1, 2, "hi", 5⟩, ⟨3, 1, "own", 3⟩]

/-- C6 scenario: two users, no edges. -/
def c6s : DBState := { users := [1, 2], messages := [], follows := [], likes := [] }

/-- C7 scenario: message 1 authored by user 2, no like edges. -/
def c7s : DBState :=
  { users := [1, 2], messages := [⟨1, 2, "m", 0⟩], follows := [], likes := [] }

/-- C8 scenario: mutual follows between users 1 and 2, edges among 2 and 3,
and likes touching user 1 from both sides. -/
def c8s : DBState :=
  { users := [1, 2, 3],
    messages := [⟨1, 1, "by1", 0⟩, ⟨2, 2, "by2", 1⟩],
    follows := [(1, 2), (2, 1), (2, 3), (3, 2)],
    likes := [(2, 1), (1, 2), (3, 2)] }

/-- C2 scenario: two users; message 1 is authored by user 1. -/
def c2s : DBState :=
  { users := [1, 2], messages := [⟨1, 1, "m1-text", 0⟩], follows := [], likes := [] }

/-- C3 scenario: a single user and no follow edges. -/
def c3s : DBState := { users := [1], messages := [], follows := [], likes := [] }

/-- C4 scenario: user 1 already has a like edge to their own message 1. -/
def c4s : DBState :=
  { users := [1], messages := [⟨1, 1, "m1", 0⟩], follows := [], likes := [(1, 1)] }

/-- C4 scenario without the pre-existing like edge. -/
def c4sB : DBState :=
  { users := [1], messages := [⟨1, 1, "m1", 0⟩], follows := [], likes := [] }

/-- C5 scenario: user 1 already follows user 2. -/
def c5s : DBState :=
  { users := [1, 2], messages := [], follows := [(1, 2)], likes := [] }

/-- C10 scenario: a profile with custom image URLs. -/
def c10u : Profile := ⟨"alice", "alice@mail.com", "custom-pic", "custom-header", "hi"⟩

/-- C10 scenario: an edit submission leaving every field blank. -/
def c10f : EditForm := ⟨"", "", "", "", ""⟩

/-! ## Claims -/

/-- C1: for a logged-in user, the homepage timeline contains only messages
from the store authored by the user or by someone the user follows; every
such message appears unless the timeline is full at 100 entries with every
shown message at least as recent; the timeline is sorted by timestamp
descending and holds at most 100 messages. -/
theorem homepage_timeline_spec (s : DBState) (uid : Nat) (tl : List Msg)
    (h : homepage s (some uid) = some tl) :
    (∀ m ∈ tl, m ∈ s.messages ∧ (m.user_id = uid ∨ m.user_id ∈ following s uid)) ∧
    (∀ m ∈ s.messages, (m.user_id = uid ∨ m.user_id ∈ following s uid) →
      m ∈ tl ∨ (tl.length = 100 ∧ ∀ m2 ∈ tl, m.timestamp ≤ m2.timestamp)) ∧
    List.Sorted tsGe tl ∧
    tl.length ≤ 100 := by
  have htl : home_timeline s uid = tl := Option.some.inj h
  subst htl
  rw [home_timeline]
  set flt : List Msg := s.messages.filter
    (fun m => (following s uid).contains m.user_id || m.user_id == uid) with hflt
  set srt : List Msg := List.insertionSort tsGe flt with hsrt
  refine ⟨?_, ?_, ?_, ?_⟩
  · intro m hm
    have hm1 : m ∈ srt := List.take_subset _ _ hm
    have hm2 : m ∈ flt := (List.perm_insertionSort tsGe flt).mem_iff.mp hm1
    obtain ⟨hmem, hpred⟩ := List.mem_filter.mp hm2
    refine ⟨hmem, ?_⟩
    simp at hpred
    tauto
  · intro m hm hp
    have hm2 : m ∈ flt := List.mem_filter.mpr ⟨hm, by simp; tauto⟩
    have hm1 : m ∈ srt := (List.perm_insertionSort tsGe flt).mem_iff.mpr hm2
    rw [← List.take_append_drop 100 srt] at hm1
    rcases List.mem_append.mp hm1 with htake | hdrop
    · exact Or.inl htake
    · refine Or.inr ⟨?_, ?_⟩
      · have h100 : 100 < srt.length :=
          List.length_lt_of_drop_ne_nil (List.ne_nil_of_mem hdrop)
        simp [List.length_take, Nat.min_eq_left (Nat.le_of_lt h100)]
      · intro m2 hm2t
        exact (List.sorted_insertionSort tsGe flt).rel_of_mem_take_of_mem_drop hm2t hdrop
  · exact (List.sorted_insertionSort tsGe flt).sublist (List.take_sublist 100 srt)
  · exact List.length_take_le 100 srt

/-- C1 (witness): the theorem applied to the concrete scenario timeline. -/
theorem homepage_timeline_spec_witness :
    List.Sorted tsGe c1tl ∧ c1tl.length ≤ 100 :=
  ⟨(homepage_timeline_spec c1s 1 c1tl (by decide)).2.2.1,
   (homepage_timeline_spec c1s 1 c1tl (by decide)).2.2.2⟩

/-- C2 (code bug evidence): `delete_message` performs no authorship check,
contradicting its own docstring ("Check that this message was written by the
current user"): logged-in user 2, with a valid CSRF form, deletes message 1
authored by user 1, and the message is removed from the store. -/
theorem delete_message_no_author_check :
    delete_message c2s (some 2) true 1 = (.redirected, { c2s with messages := [] }) := by
  decide

/-- C3 (counterexample): the follow operation does not reject
`follower == followee` — `start_following` for the logged-in user's own id
succeeds and creates the self-follow edge `(1, 1)`. -/
theorem start_following_self_follow_created :
    (start_following c3s (some 1) true 1).1 = .redirected ∧
    (1, 1) ∈ (start_following c3s (some 1) true 1).2.follows := by
  decide

/-- C3 (amended): `start_following` has no `follower == followee` check: for a
logged-in user `uid` that exists and does not already follow themselves, a
follow request targeting `uid` itself succeeds and appends the self-follow
edge `(uid, uid)`.  Only not-logged-in, CSRF failure, a missing followee, and
already-following are rejected. -/
theorem start_following_no_self_check (s : DBState) (uid : Nat)
    (hu : uid ∈ s.users) (hnf : (uid, uid) ∉ s.follows) :
    start_following s (some uid) true uid =
      (.redirected, { s with follows := s.follows ++ [(uid, uid)] }) := by
  have h2 : uid ∉ following s uid := fun h => hnf ((mem_following_iff s uid uid).1 h)
  simp [start_following, hu, h2]

/-- C3 (witness): the amended statement evaluated on the concrete scenario. -/
theorem start_following_no_self_check_witness :
    start_following c3s (some 1) true 1 =
      (.redirected, { c3s with follows := c3s.follows ++ [(1, 1)] }) :=
  start_following_no_self_check c3s 1 (by decide) (by decide)

/-- C4 (counterexample): in a state where user 1 already holds a like edge to
their own message 1, `like_message` answers already-liked, not self-like — the
already-liked check runs before the own-message check, refuting the claimed
order. -/
theorem like_message_order_refuted :
    (like_message c4s (some 1) true 1).1 = .alreadyLiked ∧
    (like_message c4s (some 1) true 1).1 ≠ .selfLike := by
  decide

/-- C4 (amended): the two preconditions of `like_message` are checked with the
already-liked check first: when the like edge exists the call fails
already-liked (state unchanged), and when the edge does not exist and the
message is the caller's own the call fails self-like (state unchanged). -/
theorem like_message_check_order (s : DBState) (uid : Nat) (csrfOk : Bool)
    (mid : Nat) (m : Msg) (hm : findMsg s mid = some m) :
    ((uid, mid) ∈ s.likes → like_message s (some uid) csrfOk mid = (.alreadyLiked, s)) ∧
    ((uid, mid) ∉ s.likes → m.user_id = uid →
      like_message s (some uid) csrfOk mid = (.selfLike, s)) := by
  constructor
  · intro h
    have h2 : mid ∈ liked_messages s uid := (mem_liked_iff s uid mid).2 h
    simp [like_message, hm, h2]
  · intro h hauth
    have h2 : mid ∉ liked_messages s uid := fun hh => h ((mem_liked_iff s uid mid).1 hh)
    simp [like_message, hm, h2, hauth]

/-- C4 (witness): both branches of the amended statement on concrete states. -/
theorem like_message_check_order_witness :
    like_message c4s (some 1) true 1 = (.alreadyLiked, c4s) ∧
    like_message c4sB (some 1) true 1 = (.selfLike, c4sB) :=
  ⟨(like_message_check_order c4s 1 true 1 ⟨1, 1, "m1", 0⟩ rfl).1 (by decide),
   (like_message_check_order c4sB 1 true 1 ⟨1, 1, "m1", 0⟩ rfl).2 (by decide) rfl⟩

/-- C5: when the follow edge `(A, B)` already exists, a further
`start_following` call by `A` targeting `B` fails with the already-following
flash and returns the state unchanged (the membership check runs before any
insert). -/
theorem start_following_already_following (s : DBState) (A B : Nat)
    (hB : B ∈ s.users) (h : (A, B) ∈ s.follows) :
    start_following s (some A) true B = (.alreadyFollowing, s) := by
  have h2 : B ∈ following s A := (mem_following_iff s A B).2 h
  simp [start_following, hB, h2]

/-- C5 (witness): the already-following failure on a concrete state. -/
theorem start_following_already_following_witness :
    start_following c5s (some 1) true 2 = (.alreadyFollowing, c5s) :=
  start_following_already_following c5s 1 2 (by decide) (by decide)

/-- C6: for distinct users `A`, `B`, a successful `start_following` puts `B`
in `A`'s following list and `A` in `B`'s followers list, and a subsequent
successful `stop_following` removes both memberships. -/
theorem follow_unfollow_memberships (s : DBState) (A B : Nat)
    (_hAB : A ≠ B) (hB : B ∈ s.users) (hnf : (A, B) ∉ s.follows) :
    (start_following s (some A) true B).1 = .redirected ∧
    B ∈ following (start_following s (some A) true B).2 A ∧
    A ∈ followers (start_following s (some A) true B).2 B ∧
    (stop_following (start_following s (some A) true B).2 (some A) true B).1 = .redirected ∧
    B ∉ following (stop_following (start_following s (some A) true B).2 (some A) true B).2 A ∧
    A ∉ followers (stop_following (start_following s (some A) true B).2 (some A) true B).2 B := by
  have h2 : B ∉ following s A := fun h => hnf ((mem_following_iff s A B).1 h)
  have e1 : start_following s (some A) true B =
      (.redirected, { s with follows := s.follows ++ [(A, B)] }) := by
    simp [start_following, hB, h2]
  set s1 : DBState := { s with follows := s.follows ++ [(A, B)] } with hs1
  have hmem1 : (A, B) ∈ s1.follows := by simp [hs1]
  have hf1 : B ∈ following s1 A := (mem_following_iff s1 A B).2 hmem1
  have e2 : stop_following s1 (some A) true B =
      (.redirected, { s1 with follows := s1.follows.erase (A, B) }) := by
    simp [stop_following, hf1]
    exact hB
  have herase : s1.follows.erase (A, B) = s.follows := by
    show (s.follows ++ [(A, B)]).erase (A, B) = s.follows
    rw [List.erase_append_right _ hnf, List.erase_cons_head]
    simp
  refine ⟨by rw [e1], by rw [e1]; exact hf1,
    by rw [e1]; exact (mem_followers_iff s1 A B).2 hmem1,
    by rw [e1, e2], ?_, ?_⟩
  · rw [e1, e2, herase]
    intro h
    exact hnf ((mem_following_iff _ A B).1 h)
  · rw [e1, e2, herase]
    intro h
    exact hnf ((mem_followers_iff _ A B).1 h)

/-- C6 (witness): the two memberships appear and disappear on a concrete
state. -/
theorem follow_unfollow_memberships_witness :
    2 ∈ following (start_following c6s (some 1) true 2).2 1 ∧
    1 ∈ followers (start_following c6s (some 1) true 2).2 2 ∧
    2 ∉ following (stop_following (start_following c6s (some 1) true 2).2 (some 1) true 2).2 1 ∧
    1 ∉ followers (stop_following (start_following c6s (some 1) true 2).2 (some 1) true 2).2 2 :=
  ⟨(follow_unfollow_memberships c6s 1 2 (by decide) (by decide) (by decide)).2.1,
   (follow_unfollow_memberships c6s 1 2 (by decide) (by decide) (by decide)).2.2.1,
   (follow_unfollow_memberships c6s 1 2 (by decide) (by decide) (by decide)).2.2.2.2.1,
   (follow_unfollow_memberships c6s 1 2 (by decide) (by decide) (by decide)).2.2.2.2.2⟩

/-- C7: for a message not authored by `A` and not yet liked by `A`, liking and
then unliking it succeed and return the database — in particular the like-edge
store — to exactly its prior state (round-trip identity). -/
theorem like_unlike_roundtrip (s : DBState) (A mid : Nat) (m : Msg)
    (hm : findMsg s mid = some m) (hown : m.user_id ≠ A) (hnl : (A, mid) ∉ s.likes) :
    (like_message s (some A) true mid).1 = .redirected ∧
    (unlike_message (like_message s (some A) true mid).2 (some A) true mid).1 = .redirected ∧
    (unlike_message (like_message s (some A) true mid).2 (some A) true mid).2 = s := by
  have h2 : mid ∉ liked_messages s A := fun h => hnl ((mem_liked_iff s A mid).1 h)
  have e1 : like_message s (some A) true mid =
      (.redirected, { s with likes := s.likes ++ [(A, mid)] }) := by
    simp [like_message, hm, h2, hown]
  set s1 : DBState := { s with likes := s.likes ++ [(A, mid)] } with hs1
  have hm1 : findMsg s1 mid = some m := hm
  have hmem : mid ∈ liked_messages s1 A :=
    (mem_liked_iff s1 A mid).2 (by simp [hs1])
  have e2 : unlike_message s1 (some A) true mid =
      (.redirected, { s1 with likes := s1.likes.erase (A, mid) }) := by
    simp [unlike_message, hm1, hmem]
  have herase : s1.likes.erase (A, mid) = s.likes := by
    show (s.likes ++ [(A, mid)]).erase (A, mid) = s.likes
    rw [List.erase_append_right _ hnl, List.erase_cons_head]
    simp
  refine ⟨by rw [e1], by rw [e1, e2], ?_⟩
  rw [e1, e2]
  rw [herase]

/-- C7 (witness): the round-trip on a concrete state. -/
theorem like_unlike_roundtrip_witness :
    (unlike_message (like_message c7s (some 1) true 1).2 (some 1) true 1).2 = c7s :=
  (like_unlike_roundtrip c7s 1 1 ⟨1, 2, "m", 0⟩ rfl (by decide) (by decide)).2.2

/-- Frame lemma for the edge scans keyed on the first component: filtering out
every pair touching `U` (the second component through an arbitrary test `c`)
and then scanning for `V ≠ U` gives the original scan with the `c`-matching
values filtered out. -/
theorem scan_snd_frame (U V : Nat) (hV : V ≠ U) (c : Nat → Bool) :
    ∀ l : List (Nat × Nat),
      ((List.filter (fun p => !(p.1 == U || c p.2))
          l).filter (fun p => p.1 == V)).map Prod.snd
        = List.filter (fun x => !(c x))
            ((l.filter (fun p => p.1 == V)).map Prod.snd) := by
  have hUV : U ≠ V := fun h => hV h.symm
  intro l
  induction l with
  | nil => rfl
  | cons p t ih =>
    obtain ⟨a, b⟩ := p
    simp only [List.filter_filter] at ih ⊢
    by_cases h1 : a = V <;> by_cases h3 : a = U <;> by_cases h2 : c b = true <;>
      simp_all [List.filter_cons]

/-- Frame lemma for the edge scans keyed on the second component. -/
theorem scan_fst_frame (U V : Nat) (hV : V ≠ U) :
    ∀ l : List (Nat × Nat),
      ((List.filter (fun p => !(p.1 == U || p.2 == U))
          l).filter (fun p => p.2 == V)).map Prod.fst
        = List.filter (fun x => !(x == U))
            ((l.filter (fun p => p.2 == V)).map Prod.fst) := by
  have hUV : U ≠ V := fun h => hV h.symm
  intro l
  induction l with
  | nil => rfl
  | cons p t ih =>
    obtain ⟨a, b⟩ := p
    simp only [List.filter_filter] at ih ⊢
    by_cases h1 : b = V <;> by_cases h3 : b = U <;> by_cases h2 : a = U <;>
      simp_all [List.filter_cons]

/-- C8: a logged-in deletion of account `U` removes exactly the user row of
`U`, every message authored by `U`, every follow edge with `U` at either
endpoint, and every like edge whose user is `U` or whose message was authored
by `U`; and for every other user `V` the scans `following`, `followers` and
`liked_messages` are unchanged once restricted to entities not involving
`U`. -/
theorem delete_user_cascade (s : DBState) (U V : Nat) (hV : V ≠ U) :
    (delete_user s (some U) true).1 = .redirected ∧
    (∀ u, u ∈ (delete_user s (some U) true).2.users ↔ u ∈ s.users ∧ u ≠ U) ∧
    (∀ m, m ∈ (delete_user s (some U) true).2.messages ↔ m ∈ s.messages ∧ m.user_id ≠ U) ∧
    (∀ p, p ∈ (delete_user s (some U) true).2.follows ↔
      p ∈ s.follows ∧ p.1 ≠ U ∧ p.2 ≠ U) ∧
    (∀ q, q ∈ (delete_user s (some U) true).2.likes ↔
      q ∈ s.likes ∧ q.1 ≠ U ∧ q.2 ∉ authoredIds s U) ∧
    following (delete_user s (some U) true).2 V =
      (following s V).filter (fun w => !(w == U)) ∧
    followers (delete_user s (some U) true).2 V =
      (followers s V).filter (fun w => !(w == U)) ∧
    liked_messages (delete_user s (some U) true).2 V =
      (liked_messages s V).filter (fun x => !((authoredIds s U).contains x)) := by
  refine ⟨rfl, ?_, ?_, ?_, ?_, ?_, ?_, ?_⟩
  · intro u
    simp [delete_user, List.mem_filter]
  · intro m
    simp [delete_user, List.mem_filter]
  · intro p
    simp [delete_user, List.mem_filter]
  · intro q
    simp [delete_user, List.mem_filter]
  · exact scan_snd_frame U V hV (fun x => x == U) s.follows
  · exact scan_fst_frame U V hV s.follows
  · exact scan_snd_frame U V hV (fun x => (authoredIds s U).contains x) s.likes

/-- C8 (witness): the cascade and the frame identities on a concrete state,
deleting user 1, observed from users 2 and 3. -/
theorem delete_user_cascade_witness :
    (delete_user c8s (some 1) true).1 = .redirected ∧
    following (delete_user c8s (some 1) true).2 2 =
      (following c8s 2).filter (fun w => !(w == 1)) ∧
    followers (delete_user c8s (some 1) true).2 2 =
      (followers c8s 2).filter (fun w => !(w == 1)) ∧
    liked_messages (delete_user c8s (some 1) true).2 3 =
      (liked_messages c8s 3).filter (fun x => !((authoredIds c8s 1).contains x)) :=
  ⟨(delete_user_cascade c8s 1 2 (by decide)).1,
   (delete_user_cascade c8s 1 2 (by decide)).2.2.2.2.2.1,
   (delete_user_cascade c8s 1 2 (by decide)).2.2.2.2.2.2.1,
   (delete_user_cascade c8s 1 3 (by decide)).2.2.2.2.2.2.2⟩

/-- C9: every mutating route invoked with no logged-in user (`g.user = none`)
is rejected — with the access-unauthorized flash, or a 404 when the liked /
unliked message id does not resolve — and the returned state is exactly the
input state: no mutation on unauthenticated access. -/
theorem unauthenticated_requests_no_mutation (s : DBState) (csrfOk formValid : Bool)
    (fid mid newId newTs : Nat) (text : String) :
    start_following s none csrfOk fid = (.accessUnauthorized, s) ∧
    stop_following s none csrfOk fid = (.accessUnauthorized, s) ∧
    ((like_message s none csrfOk mid).2 = s ∧
      ((like_message s none csrfOk mid).1 = .accessUnauthorized ∨
        (like_message s none csrfOk mid).1 = .notFound)) ∧
    ((unlike_message s none csrfOk mid).2 = s ∧
      ((unlike_message s none csrfOk mid).1 = .accessUnauthorized ∨
        (unlike_message s none csrfOk mid).1 = .notFound)) ∧
    add_message s none formValid text newId newTs = (.accessUnauthorized, s) ∧
    delete_message s none csrfOk mid = (.accessUnauthorized, s) := by
  refine ⟨rfl, rfl, ?_, ?_, rfl, rfl⟩ <;>
    cases h : findMsg s mid <;> simp [like_message, unlike_message, h]

/-- C10: on a valid, re-authenticated profile edit, a blank username, email,
or bio keeps the stored value of that field, while a blank image URL or
header image URL resets that field to the application default, discarding any
stored custom value. -/
theorem edit_profile_blank_field_behavior (u : Profile) (f : EditForm) :
    edit_profile (some u) f true true = .updated (updatedProfile u f) ∧
    (f.username = "" → (updatedProfile u f).username = u.username) ∧
    (f.email = "" → (updatedProfile u f).email = u.email) ∧
    (f.bio = "" → (updatedProfile u f).bio = u.bio) ∧
    (f.image_url = "" → (updatedProfile u f).image_url = DEFAULT_IMAGE_URL) ∧
    (f.header_image_url = "" →
      (updatedProfile u f).header_image_url = DEFAULT_HEADER_IMAGE_URL) := by
  refine ⟨rfl, ?_, ?_, ?_, ?_, ?_⟩ <;> intro h <;> simp [updatedProfile, strOr, h]

/-- C10 (witness): an all-blank submission over a profile with custom image
URLs keeps the identity fields and resets both images to the defaults. -/
theorem edit_profile_blank_field_behavior_witness :
    edit_profile (some c10u) c10f true true = .updated (updatedProfile c10u c10f) ∧
    (updatedProfile c10u c10f).username = c10u.username ∧
    (updatedProfile c10u c10f).bio = c10u.bio ∧
    (updatedProfile c10u c10f).image_url = DEFAULT_IMAGE_URL ∧
    (updatedProfile c10u c10f).header_image_url = DEFAULT_HEADER_IMAGE_URL :=
  ⟨(edit_profile_blank_field_behavior c10u c10f).1,
   (edit_profile_blank_field_behavior c10u c10f).2.1 rfl,
   (edit_profile_blank_field_behavior c10u c10f).2.2.2.1 rfl,
   (edit_profile_blank_field_behavior c10u c10f).2.2.2.2.1 rfl,
   (edit_profile_blank_field_behavior c10u c10f).2.2.2.2.2 rfl⟩

end Warbler
